import Mathlib

/-!
Verification of core behaviors of the status-keycard-qt library against its
specification. The C++ sources are shallowly embedded: each embedded
definition mirrors one function of the repository (file and function named in
its doc comment); machine integers are modelled as `Nat`, byte arrays as
`List Nat` of values below 256, fallible operations return `Option` or a
`Bool` flag, and stateful methods are explicit state-passing functions.
-/

namespace StatusKeycard

/-- FlowState enumeration from flow_types / flow_state_machine:
Idle, Running, Paused, Resuming, Cancelling. -/
inductive FlowState where
  | Idle
  | Running
  | Paused
  | Resuming
  | Cancelling
deriving DecidableEq, Repr, Fintype

/-- FlowStateMachine::canTransition (src/src/storage/pairing_storage.h
part, lines 75-114): same state is always allowed; otherwise the permitted
successor states of the current state are checked. -/
def canTransition (cur new : FlowState) : Bool :=
  if new = cur then true
  else
    match cur with
    | FlowState.Idle => new = FlowState.Running
    | FlowState.Running =>
        new = FlowState.Paused || new = FlowState.Cancelling || new = FlowState.Idle
    | FlowState.Paused =>
        new = FlowState.Resuming || new = FlowState.Cancelling || new = FlowState.Running
    | FlowState.Resuming => new = FlowState.Running
    | FlowState.Cancelling => new = FlowState.Idle

/-- FlowStateMachine::transition (lines 116-155): returns whether the
transition was accepted, the resulting state, and the list of
`stateChanged(old, new)` signals emitted. An invalid transition returns
false leaving the state unchanged; a same-state transition is a no-op that
returns true; otherwise the state is updated and one signal is emitted. -/
def transition (cur new : FlowState) : Bool × FlowState × List (FlowState × FlowState) :=
  if canTransition cur new then
    if cur = new then (true, cur, [])
    else (true, new, [(cur, new)])
  else (false, cur, [])

/-- FlowStateMachine::reset (lines 157-173): hard reset to Idle regardless of
transition rules, emitting `stateChanged` only when the state actually was
not Idle. Returns the new state and the emitted signals. -/
def smReset (cur : FlowState) : FlowState × List (FlowState × FlowState) :=
  if cur = FlowState.Idle then (cur, [])
  else (FlowState.Idle, [(cur, FlowState.Idle)])

/-- FlowManager::cancelFlow (src/src/flow/flow_manager.cpp lines 294-321),
abstracted over whether a flow object currently exists (`m_currentFlow`).
With no flow it returns true immediately, before any state-machine call and
before any signal.  With a flow it transitions to Cancelling (failure of that
transition returns false), cancels the flow, and cleans up; cleanupFlow ends
with a state-machine hard reset.  Returns (result, final flow state, emitted
`stateChanged` signals). -/
def cancelFlow (hasFlow : Bool) (st : FlowState) : Bool × FlowState × List (FlowState × FlowState) :=
  if !hasFlow then (true, st, [])
  else
    match transition st FlowState.Cancelling with
    | (false, s, ev) => (false, s, ev)
    | (true, s, ev) =>
        let r := smReset s
        (true, r.1, ev ++ r.2)

/-- Transition pairs permitted by the specification (section 3, FlowState):
Idle to Running; Running to Paused, Cancelling or Idle; Paused to Resuming,
Cancelling or Running; Resuming to Running; Cancelling to Idle.  Stated from
the spec's words, to be compared against `canTransition` / `transition`. -/
def specPermittedTransitions : List (FlowState × FlowState) :=
  [ (FlowState.Idle, FlowState.Running),
    (FlowState.Running, FlowState.Paused),
    (FlowState.Running, FlowState.Cancelling),
    (FlowState.Running, FlowState.Idle),
    (FlowState.Paused, FlowState.Resuming),
    (FlowState.Paused, FlowState.Cancelling),
    (FlowState.Paused, FlowState.Running),
    (FlowState.Resuming, FlowState.Running),
    (FlowState.Cancelling, FlowState.Idle) ]

/-- SessionState enumeration from session_state.h (spec section 3). -/
inductive SessionState where
  | UnknownReaderState
  | NoReadersFound
  | WaitingForReader
  | ReaderConnectionError
  | WaitingForCard
  | ConnectingCard
  | EmptyKeycard
  | NotKeycard
  | ConnectionError
  | PairingError
  | BlockedPIN
  | BlockedPUK
  | Ready
  | Authorized
  | FactoryResetting
deriving DecidableEq, Repr, Fintype

/-- Kebab-case external names of the session states (session_state sources;
confirmed by the unit tests in src/unnamed/part_001 lines 199-210). -/
def sessionStateToString : SessionState → String
  | SessionState.UnknownReaderState => "unknown-reader-state"
  | SessionState.NoReadersFound => "no-readers-found"
  | SessionState.WaitingForReader => "waiting-for-reader"
  | SessionState.ReaderConnectionError => "reader-connection-error"
  | SessionState.WaitingForCard => "waiting-for-card"
  | SessionState.ConnectingCard => "connecting-card"
  | SessionState.EmptyKeycard => "empty-keycard"
  | SessionState.NotKeycard => "not-keycard"
  | SessionState.ConnectionError => "connection-error"
  | SessionState.PairingError => "pairing-error"
  | SessionState.BlockedPIN => "blocked-pin"
  | SessionState.BlockedPUK => "blocked-puk"
  | SessionState.Ready => "ready"
  | SessionState.Authorized => "authorized"
  | SessionState.FactoryResetting => "factory-resetting"

/-- BIP32 derivation path constants of session_manager.cpp (PATH_MASTER,
PATH_WALLET_ROOT, PATH_WALLET, PATH_EIP1581, PATH_WHISPER, PATH_ENCRYPTION)
and of login_flow.cpp (EIP1581_PATH, WHISPER_PATH, ENCRYPTION_PATH; the same
strings).  The code only ever compares these strings for equality, so they
are embedded as an enumeration; `master` stands for the string m. -/
inductive DerivPath where
  | master
  | walletRoot
  | wallet
  | eip1581
  | whisper
  | encryption
deriving DecidableEq, Repr

/-- Export variants: CommandSet::exportKey with P2ExportKeyPrivateAndPublic,
with P2ExportKeyPublicOnly (the default argument used when the call site
passes no P2, per the spec's Command Set interface), and
CommandSet::exportKeyExtended. -/
inductive ExportKind where
  | privAndPub
  | pubOnly
  | extendedPub
deriving DecidableEq, Repr

/-- One export call as issued to the command set: exportKey(derive,
makeCurrent, path, kind) or exportKeyExtended(derive, makeCurrent, path). -/
structure ExportCall where
  derive : Bool
  makeCurrent : Bool
  path : DerivPath
  kind : ExportKind
deriving DecidableEq, Repr

/-- SessionManager::exportLoginKeys (src/unnamed/part_004 lines 2433-2488):
whisper private key with makeCurrent true, then encryption private key with
makeCurrent false. -/
def sessionExportLoginKeysCalls : List ExportCall :=
  [ ⟨true, true, DerivPath.whisper, ExportKind.privAndPub⟩,
    ⟨true, false, DerivPath.encryption, ExportKind.privAndPub⟩ ]

/-- The extended-key support test of SessionManager::exportRecoverKeys
(part_004 line 2530): `m_appInfo.appVersion >= 3 && m_appInfo.appVersionMinor >= 1`. -/
def supportsExtended (major minor : Nat) : Bool :=
  decide (3 ≤ major) && decide (1 ≤ minor)

/-- The wallet-root export of SessionManager::exportRecoverKeys (part_004
lines 2528-2533): exportKeyExtended when `supportsExtended`, plain public
export otherwise. -/
def walletRootExportKind (major minor : Nat) : ExportKind :=
  if supportsExtended major minor then ExportKind.extendedPub else ExportKind.pubOnly

/-- SessionManager::exportRecoverKeys (part_004 lines 2490-2568): first the
login keys, then EIP1581 (public), wallet root (extended or public by
version), wallet (public), and finally the master key with makeCurrent true
(the source comment reads: makeCurrent=true for compatibility). -/
def sessionExportRecoverKeysCalls (major minor : Nat) : List ExportCall :=
  sessionExportLoginKeysCalls ++
  [ ⟨true, false, DerivPath.eip1581, ExportKind.pubOnly⟩,
    ⟨true, false, DerivPath.walletRoot, walletRootExportKind major minor⟩,
    ⟨true, false, DerivPath.wallet, ExportKind.pubOnly⟩,
    ⟨true, true, DerivPath.master, ExportKind.pubOnly⟩ ]

/-- LoginFlow::exportKey (src/unnamed/part_009 lines 292-322): derive=true,
makeCurrent only when the path is the master path m, export type private or
public by `includePrivate`. -/
def loginFlowExportKeyCall (path : DerivPath) (includePrivate : Bool) : ExportCall :=
  ⟨true, path = DerivPath.master,
   path,
   if includePrivate then ExportKind.privAndPub else ExportKind.pubOnly⟩

/-- LoginFlow::execute (part_009 lines 227-290): exports the encryption key
then the whisper key, both with the private part. -/
def loginFlowExportCalls : List ExportCall :=
  [ loginFlowExportKeyCall DerivPath.encryption true,
    loginFlowExportKeyCall DerivPath.whisper true ]

/-- The spec's export-order discipline, stated from its words: the first
export of a session passes make_current=true and every later export passes
make_current=false (vacuously true of an empty session). -/
def specFirstExportCurrent (calls : List ExportCall) : Bool :=
  match calls with
  | [] => true
  | c :: rest => c.makeCurrent && rest.all (fun e => !e.makeCurrent)

/-- The spec's version threshold for the extended wallet-root export, stated
from its words: applet version at least 3.1 in the usual lexicographic
ordering of (major, minor). -/
def specVersionAtLeast31 (major minor : Nat) : Bool :=
  decide (3 < major) || (decide (major = 3) && decide (1 ≤ minor))

/-- APDU commands relevant to the connect and authenticate sequences, as
issued through the Command Set (spec section 4.2: each Command Set operation
stands for one APDU exchange of the same name). -/
inductive APDUCmd where
  | selectCmd
  | pairCmd
  | openSC
  | getStatusApp
  | verifyPin
deriving DecidableEq, Repr

/-- SessionManager::openSecureChannel (src/unnamed/part_004 lines 450-582)
as the sequence of APDUs it issues, parameterized by the card's responses:
SELECT always; stop when SELECT fails (neither instance UID nor secure
channel key) or the card is uninitialized; PAIR when no stored pairing, and
stop when pairing fails; OPEN_SECURE_CHANNEL, and stop when it fails; then
GET_STATUS(Application) unconditionally.  The best-effort getMetadata call
that follows issues no APDU during connect, because getMetadata requires the
Ready or Authorized state and the session is still in ConnectingCard (the
source comments on exactly this at lines 576-578). -/
def sessionConnectTrace (selOk initialized havePairing pairOk openOk : Bool) : List APDUCmd :=
  APDUCmd.selectCmd ::
    (if !selOk then []
     else if !initialized then []
     else
       let openPart : List APDUCmd :=
         APDUCmd.openSC :: (if openOk then [APDUCmd.getStatusApp] else [])
       if havePairing then openPart
       else APDUCmd.pairCmd :: (if pairOk then openPart else []))

/-- FlowBase::verifyPIN (src/unnamed/part_007 lines 367-417) as the APDUs it
issues: one VERIFY_PIN per attempt, recursing after a wrong PIN (the pauses
issue no APDU); `outcomes` lists the card's successive verdicts, and the
recursion stops at a success, a block, or the end of the attempts. -/
def flowVerifyPinTrace : List Bool → List APDUCmd
  | [] => []
  | ok :: rest => APDUCmd.verifyPin :: (if ok then [] else flowVerifyPinTrace rest)

/-- FlowBase::openSecureChannelAndAuthenticate (src/unnamed/part_007 lines
276-365) as the APDUs it issues: PAIR attempts when no stored pairing (the
default password, then, unless slots are exhausted, a user-supplied one after
a pause), then OPEN_SECURE_CHANNEL, and, when authentication was requested
and the open succeeded, directly FlowBase::verifyPIN.  No GET_STATUS is
issued anywhere in this function. -/
def flowOpenAuthTrace (havePairing defaultPairOk noSlots userPairOk openOk auth : Bool)
    (pinOutcomes : List Bool) : List APDUCmd :=
  let afterPairing : List APDUCmd :=
    APDUCmd.openSC ::
      (if !openOk then []
       else if auth then flowVerifyPinTrace pinOutcomes
       else [])
  if havePairing then afterPairing
  else
    APDUCmd.pairCmd ::
      (if defaultPairOk then afterPairing
       else if noSlots then []
       else APDUCmd.pairCmd :: (if userPairOk then afterPairing else []))

/-- The command that follows the first OPEN_SECURE_CHANNEL of a trace, when
there is one. -/
def afterOpen : List APDUCmd → Option APDUCmd
  | [] => none
  | APDUCmd.openSC :: rest => rest.head?
  | _ :: rest => afterOpen rest

/-- Loop body of writeLEB128, structurally recursive on a fuel bound (the
value strictly shrinks at each division by 128, so any fuel above the value
itself is never exhausted and the zero-fuel branch is unreachable). -/
def writeLEB128Aux : Nat → Nat → List Nat
  | 0, v => [v % 128]
  | Nat.succ fuel, v =>
      if v < 128 then [v] else (v % 128 + 128) :: writeLEB128Aux fuel (v / 128)

/-- writeLEB128 (src/unnamed/part_004 lines 1479-1488): emit seven bits at a
time, low first, setting the continuation bit 0x80 on every byte but the
last; at least one byte is always emitted. -/
def writeLEB128 (v : Nat) : List Nat :=
  writeLEB128Aux (v + 1) v

/-- Run-length pair emission of SessionManager::storeMetadata (part_004
lines 2722-2742): walking the sorted components with a current (start,
count), extending the run on a consecutive component and otherwise flushing
LEB128(start), LEB128(count) and starting a new run; the final run is always
flushed. -/
def encodeRunsAux (start count : Nat) : List Nat → List Nat
  | [] => writeLEB128 start ++ writeLEB128 count
  | c :: rest =>
      if c = start + count + 1 then encodeRunsAux start (count + 1) rest
      else (writeLEB128 start ++ writeLEB128 count) ++ encodeRunsAux c 0 rest

/-- Ascending insertion used to model the std::sort call of storeMetadata
(part_004 line 2701). -/
def insertAsc (x : Nat) : List Nat → List Nat
  | [] => [x]
  | y :: rest => if x ≤ y then x :: y :: rest else y :: insertAsc x rest

/-- Sorting of the extracted path components, modelling std::sort ascending
(part_004 line 2701). -/
def sortComponents (l : List Nat) : List Nat :=
  l.foldr insertAsc []

/-- SessionManager::storeMetadata encoding (part_004 lines 2703-2745), after
the wallet-root prefixes have been stripped down to their final u32
components: none when the UTF-8 name exceeds 20 bytes, otherwise the header
byte 0x20 ||| name length, the name bytes, and the LEB128 (start, count)
run pairs of the sorted components (no pairs when there are no components).
The result is the byte blob handed to storeData(0x00). -/
def storeMetadataEncode (nameBytes : List Nat) (components : List Nat) : Option (List Nat) :=
  if nameBytes.length > 20 then none
  else
    some ((0x20 ||| nameBytes.length) :: nameBytes ++
      (match sortComponents components with
       | [] => []
       | c :: rest => encodeRunsAux c 0 rest))

/-- parseTlvLength (part_004 lines 2237-2270), on the bytes that follow the
tag: returns the parsed length and the remaining bytes.  A first byte below
0x80 is a short-form length; 0x80 itself (indefinite) yields 0; otherwise
the low nibble counts big-endian length bytes, rejected as 0 when above 4 or
running past the data. -/
def parseTlvLength : List Nat → Nat × List Nat
  | [] => (0, [])
  | b :: rest =>
      if b < 0x80 then (b, rest)
      else if b = 0x80 then (0, rest)
      else
        let n := b - 0x80
        if n > 4 || rest.length < n then (0, rest)
        else ((rest.take n).foldl (fun acc x => acc * 256 + x) 0, rest.drop n)

/-- findTlvTag (part_004 lines 2272-2307): scan tag by tag; after parsing a
length, stop with an empty result when the length is zero at the end of the
data or when the length overruns the data; return the value bytes when the
tag matches; otherwise skip the value and continue.  The fuel argument
bounds the loop by the data length (each iteration consumes at least the tag
byte, so the bound is never reached first). -/
def findTlvLoop (tag : Nat) : Nat → List Nat → List Nat
  | 0, _ => []
  | _, [] => []
  | Nat.succ fuel, t :: rest =>
      let parsed := parseTlvLength rest
      let len := parsed.1
      let rest2 := parsed.2
      if len = 0 && rest2.isEmpty then []
      else if rest2.length < len then []
      else if t = tag then rest2.take len
      else findTlvLoop tag fuel (rest2.drop len)

/-- findTlvTag (part_004 lines 2272-2307) with its loop bounded by the data
size. -/
def findTlvTag (data : List Nat) (tag : Nat) : List Nat :=
  findTlvLoop tag (data.length + 1) data

/-- The 4-byte big-endian u32 walk of SessionManager::getMetadata (part_004
lines 2622-2645): consume path components while at least four bytes remain
(the per-component public-key export APDUs are not modelled here; they do
not affect the decoded name or components). -/
def parseWalletComponents : List Nat → List Nat
  | b0 :: b1 :: b2 :: b3 :: rest =>
      ((b0 <<< 24) ||| (b1 <<< 16) ||| (b2 <<< 8) ||| b3) :: parseWalletComponents rest
  | _ => []

/-- SessionManager::getMetadata decoding (part_004 lines 2601-2646) of the
bytes read back from getData(0x00): look for a BER-TLV template with tag
0xA1; when absent (or empty) the metadata stays empty; otherwise the name is
the value of tag 0x80 and the components are the 4-byte big-endian u32s of
the value of tag 0x81.  Returns (name bytes, components). -/
def getMetadataDecode (data : List Nat) : List Nat × List Nat :=
  let tpl := findTlvTag data 0xA1
  if tpl.isEmpty then ([], [])
  else (findTlvTag tpl 0x80, parseWalletComponents (findTlvTag tpl 0x81))

/-- The session-manager state relevant to card detection: the session state
and the currently tracked card UID. -/
structure MgrSt where
  state : SessionState
  currentUID : String
deriving DecidableEq, Repr

/-- Result of a `target_detected` delivery: the new manager state, whether a
ConnectingCard transition was emitted, and whether a fresh CommandSet was
constructed (which discards and re-establishes the secure-channel state). -/
structure DetectResult where
  mgr : MgrSt
  emittedConnecting : Bool
  freshCommandSet : Bool
deriving DecidableEq, Repr

/-- SessionManager::onCardDetected, first session_manager.cpp variant
(src/unnamed/part_004 lines 393-419 with openSecureChannel lines 450-582):
no same-UID check; it unconditionally records the UID, emits cardDetected
and the ConnectingCard transition, and runs openSecureChannel, which always
constructs a fresh CommandSet.  The outcome bools summarize the card
replies: connect failure yields ConnectionError, an uninitialized card
EmptyKeycard, otherwise Ready. -/
def onCardDetectedA (_st : MgrSt) (uid : String) (connectOk initialized : Bool) : DetectResult :=
  let final : SessionState :=
    if !connectOk then SessionState.ConnectionError
    else if !initialized then SessionState.EmptyKeycard
    else SessionState.Ready
  ⟨⟨final, uid⟩, true, true⟩

/-- SessionManager::onCardDetected, second session_manager.cpp variant
(src/unnamed/part_004 lines 1672-1752): when the UID equals the tracked UID
and the state is anything other than ConnectionError, the event is ignored
outright (no signal, no state change, no secure-channel work).  Otherwise it
records the UID, emits ConnectingCard, and the background task SELECTs with
the existing CommandSet (none is recreated and no secure channel is opened
during detection in this variant): no CommandSet or SELECT failure yields
ConnectionError, an uninitialized card EmptyKeycard, otherwise Ready. -/
def onCardDetectedB (st : MgrSt) (uid : String) (hasCmdSet selOk initialized : Bool) : DetectResult :=
  if st.currentUID = uid && !(st.state = SessionState.ConnectionError) then ⟨st, false, false⟩
  else
    let final : SessionState :=
      if !hasCmdSet then SessionState.ConnectionError
      else if !selOk then SessionState.ConnectionError
      else if !initialized then SessionState.EmptyKeycard
      else SessionState.Ready
    ⟨⟨final, uid⟩, true, false⟩

/-- The session-manager state relevant to authorize: the session state, the
authorized flag and the last_error string. -/
structure AuthSt where
  state : SessionState
  authorized : Bool
  lastError : String
deriving DecidableEq, Repr

/-- SessionManager::authorize (src/unnamed/part_004 lines 1995-2046),
parameterized by whether a CommandSet exists and by the card's reply to
verify_pin (`verifyOk`; on failure `cmdErr` is the command set's lastError
and `remaining` the value of remainingPINAttempts, negative when the failure
carried no 0x63Cx attempt counter).  Not Ready: error, state unchanged.
Wrong PIN: failure; last_error becomes the command-set error, overwritten by
the formatted wrong-PIN message when the remaining count is non-negative;
the state stays as it was.  Success: authorized flag set and transition to
Authorized. -/
def authorize (st : AuthSt) (hasCmdSet verifyOk : Bool) (cmdErr : String) (remaining : Int) :
    Bool × AuthSt :=
  if !(st.state = SessionState.Ready) then
    (false, ⟨st.state, st.authorized,
      "Card not ready (current state: " ++ sessionStateToString st.state ++ ")"⟩)
  else if !hasCmdSet then
    (false, ⟨st.state, st.authorized, "No command set available (no card connected)"⟩)
  else if !verifyOk then
    if 0 ≤ remaining then
      (false, ⟨st.state, st.authorized,
        "Wrong PIN (" ++ toString remaining ++ " attempts remaining)"⟩)
    else (false, ⟨st.state, st.authorized, cmdErr⟩)
  else
    (true, ⟨SessionState.Authorized, true, st.lastError⟩)

/-- Lowercase hex digit of a value below 16, as produced by
QByteArray::toHex. -/
def hexDigitChar (n : Nat) : Char :=
  if n < 10 then Char.ofNat (48 + n) else Char.ofNat (87 + n)

/-- QByteArray::toHex on a byte list: two lowercase hex digits per byte,
high nibble first (the encoding used by PairingStorage::save, part_005 line
162). -/
def bytesToHex (l : List Nat) : String :=
  String.mk (l.foldr (fun b acc => hexDigitChar (b / 16) :: hexDigitChar (b % 16) :: acc) [])

/-- Value of one hex digit character, accepting 0-9, a-f and A-F. -/
def hexVal (c : Char) : Option Nat :=
  let n := c.toNat
  if 48 ≤ n && n ≤ 57 then some (n - 48)
  else if 97 ≤ n && n ≤ 102 then some (n - 87)
  else if 65 ≤ n && n ≤ 70 then some (n - 55)
  else none

/-- QByteArray::fromHex on the character list of a well-formed even-length
hex string (the decoding used by PairingStorage::load, part_005 line 125;
the pairing files only ever hold toHex output, so the Qt fallback behavior
on malformed input is out of scope and a malformed tail decodes to
nothing). -/
def hexToBytesList : List Char → List Nat
  | c1 :: c2 :: rest =>
      match hexVal c1, hexVal c2 with
      | some h, some l => (h * 16 + l) :: hexToBytesList rest
      | _, _ => []
  | _ => []

/-- QByteArray::fromHex on a string. -/
def hexToBytes (s : String) : List Nat :=
  hexToBytesList s.data

/-- Keycard::PairingInfo: the 32-byte pairing key and the slot index.
Modelled from the spec: the struct lives in the keycard-qt types header,
which is not under src/; the spec (section 3) gives its fields and the
invariant that it is valid iff the key is 32 bytes long, matching every use
in the sources. -/
structure PairingInfo where
  key : List Nat
  index : Nat
deriving DecidableEq, Repr

/-- PairingInfo validity: key length exactly 32 (spec section 3; checked by
PairingStorage::storePairing through pairingInfo.isValid()). -/
def PairingInfo.isValid (pi : PairingInfo) : Bool :=
  pi.key.length = 32

/-- The in-memory pairing map m_pairings of PairingStorage, keyed by the hex
instance UID. -/
def PairingMap := List (String × PairingInfo)

/-- QMap-style insert: replace the entry with the same key, else append. -/
def mapInsert (uid : String) (pi : PairingInfo) : PairingMap → PairingMap
  | [] => [(uid, pi)]
  | (k, v) :: rest => if k = uid then (k, pi) :: rest else (k, v) :: mapInsert uid pi rest

/-- QMap-style lookup of a pairing by instance UID. -/
def mapLookup (uid : String) : PairingMap → Option PairingInfo
  | [] => none
  | (k, v) :: rest => if k = uid then some v else mapLookup uid rest

/-- PairingStorage::storePairing (src/unnamed/part_005 lines 189-207):
reject an empty instance UID or an invalid pairing; otherwise store it in
the map. -/
def storePairing (uid : String) (pi : PairingInfo) (m : PairingMap) : Bool × PairingMap :=
  if uid = "" then (false, m)
  else if !pi.isValid then (false, m)
  else (true, mapInsert uid pi m)

/-- PairingStorage::save (part_005 lines 141-187) as the content written to
the pairings file: one (instance UID, index, lowercase hex key) record per
stored pairing. -/
def savePairings (m : PairingMap) : List (String × Nat × String) :=
  m.map (fun e => (e.1, e.2.index, bytesToHex e.2.key))

/-- PairingStorage::load (part_005 lines 80-139) from a parsed pairings
file: each record's key is hex-decoded, records whose key decodes to nothing
are skipped with a warning, the rest populate the map. -/
def loadPairings (file : List (String × Nat × String)) : PairingMap :=
  file.foldl
    (fun acc e =>
      let k := hexToBytes e.2.2
      if k.isEmpty then acc else mapInsert e.1 ⟨k, e.2.1⟩ acc)
    []

/-- PairingStorage::loadPairing (part_005 lines 209-217): lookup by instance
UID (an absent UID yields the invalid default PairingInfo, modelled as
none). -/
def loadPairing (uid : String) (m : PairingMap) : Option PairingInfo :=
  mapLookup uid m

/-- Concrete 16-byte instance UID used to instantiate the pairing
round-trip. -/
def uidSample : List Nat := List.replicate 16 0xab

/-- Concrete 32-byte pairing key used to instantiate the pairing
round-trip. -/
def keySample : List Nat := List.replicate 32 0xcd

/-- UTF-8 encoding of one Unicode code point, as performed by
QString::toUtf8 (and by any conforming UTF-8 encoder). -/
def utf8EncodeCharNat (c : Nat) : List Nat :=
  if c < 0x80 then [c]
  else if c < 0x800 then [0xC0 ||| (c >>> 6), 0x80 ||| (c &&& 0x3F)]
  else if c < 0x10000 then
    [0xE0 ||| (c >>> 12), 0x80 ||| ((c >>> 6) &&& 0x3F), 0x80 ||| (c &&& 0x3F)]
  else
    [0xF0 ||| (c >>> 18), 0x80 ||| ((c >>> 12) &&& 0x3F),
     0x80 ||| ((c >>> 6) &&& 0x3F), 0x80 ||| (c &&& 0x3F)]

/-- UTF-8 encoding of a sequence of code points. -/
def utf8Encode (cps : List Nat) : List Nat :=
  cps.foldr (fun c acc => utf8EncodeCharNat c ++ acc) []

/-- Code points of a Lean string literal (used for the fixed ASCII salt
text). -/
def strCodepoints (s : String) : List Nat :=
  s.data.map Char.toNat

/-- Canonical decomposition of one code point, the mapping applied by
QString::normalized(QString::NormalizationForm_D).  Modelled from the
Unicode character database, restricted to the code points exercised in this
development: ASCII has no decompositions, U+00E9 decomposes canonically to
U+0065 U+0301, and U+FB01 (the fi ligature) has no canonical decomposition
- only a compatibility one - so NFD leaves it unchanged. -/
def canonicalDecomp (c : Nat) : List Nat :=
  if c = 0xE9 then [0x65, 0x301] else [c]

/-- Compatibility decomposition of one code point, the mapping applied by
NFKD.  Same restriction as `canonicalDecomp`; per UnicodeData.txt, U+FB01
has the compatibility decomposition U+0066 U+0069 (the letters f i). -/
def compatDecomp (c : Nat) : List Nat :=
  if c = 0xE9 then [0x65, 0x301]
  else if c = 0xFB01 then [0x66, 0x69]
  else [c]

/-- NFD over a code-point sequence (QString::normalized with
NormalizationForm_D; on the covered code points a single decomposition pass
is complete and no reordering of combining marks arises). -/
def nfdCodepoints (l : List Nat) : List Nat :=
  l.foldr (fun c acc => canonicalDecomp c ++ acc) []

/-- NFKD over a code-point sequence (QString::normalized with
NormalizationForm_KD; same coverage remark as `nfdCodepoints`).  Stated for
comparison with the spec, which demands NFKD. -/
def nfkdCodepoints (l : List Nat) : List Nat :=
  l.foldr (fun c acc => compatDecomp c ++ acc) []

/-- Arguments of one PBKDF2-HMAC-SHA512 invocation (the OpenSSL
PKCS5_PBKDF2_HMAC call with EVP_sha512): password bytes, salt bytes,
iteration count, derived-key length.  The derivation output depends on the
call exactly through these arguments. -/
structure Pbkdf2Call where
  password : List Nat
  salt : List Nat
  iterations : Nat
  dkLen : Nat
deriving DecidableEq, Repr

/-- SessionManager::loadMnemonic seed derivation (src/unnamed/part_004 lines
2155-2178, identically lines 849-875): both inputs are normalized with
QString::NormalizationForm_D (NFD), the salt is the text mnemonic followed
by the normalized passphrase, and PBKDF2-HMAC-SHA512 runs with 2048
iterations and a 64-byte output.  Inputs are code-point sequences. -/
def sessionLoadMnemonicPbkdf2 (mnemonic passphrase : List Nat) : Pbkdf2Call :=
  ⟨utf8Encode (nfdCodepoints mnemonic),
   utf8Encode (strCodepoints "mnemonic" ++ nfdCodepoints passphrase),
   2048, 64⟩

/-- mnemonicToSeed of the LoadAccount flow
(src/src/flow/flows/load_account_flow.cpp lines 17-56): the same derivation,
also with QString::NormalizationForm_D. -/
def flowMnemonicToSeedPbkdf2 (mnemonic passphrase : List Nat) : Pbkdf2Call :=
  ⟨utf8Encode (nfdCodepoints mnemonic),
   utf8Encode (strCodepoints "mnemonic" ++ nfdCodepoints passphrase),
   2048, 64⟩

/-- The derivation the spec prescribes, stated from its words: password =
NFKD(mnemonic) bytes, salt = mnemonic text followed by NFKD(passphrase),
2048 iterations, 64 bytes. -/
def specLoadMnemonicPbkdf2 (mnemonic passphrase : List Nat) : Pbkdf2Call :=
  ⟨utf8Encode (nfkdCodepoints mnemonic),
   utf8Encode (strCodepoints "mnemonic" ++ nfkdCodepoints passphrase),
   2048, 64⟩

/-- Return value of SessionManager::loadMnemonic on success (part_004 line
2198): the key UID reported by load_seed, hex-encoded with a 0x prefix. -/
def sessionLoadMnemonicResult (keyUID : List Nat) : String :=
  "0x" ++ bytesToHex keyUID

/-- C6: for every pair of flow states (s, t), transition(s, t) succeeds iff
t equals s or (s, t) is in the permitted set Idle to Running; Running to
Paused, Cancelling, Idle; Paused to Resuming, Cancelling, Running; Resuming
to Running; Cancelling to Idle; a same-state transition is accepted as a
no-op, and every other pair is rejected with the state left unchanged. -/
theorem c6_flow_transition_iff :
    ∀ s t : FlowState,
      ((transition s t).1 = true ↔ (t = s ∨ (s, t) ∈ specPermittedTransitions)) ∧
      ((transition s t).1 = false → (transition s t).2.1 = s) ∧
      transition s s = (true, s, []) := by
  decide

/-- C10: cancel_flow with no active flow returns true, leaves the flow state
unchanged, and emits no signals. -/
theorem c10_cancel_without_flow (st : FlowState) :
    cancelFlow false st = (true, st, []) := rfl

/-- C4 counterexample: the claim says every version with major at least 4
uses the extended wallet-root export; at version 4.0 the code takes the
plain public export even though 4.0 is at least 3.1. -/
theorem c4_counterexample :
    walletRootExportKind 4 0 = ExportKind.pubOnly ∧
    specVersionAtLeast31 4 0 = true := by
  decide

/-- C4 amended: the wallet-root export uses the extended-key variant iff
major is at least 3 and minor is at least 1 (a conjunction on the two
components, not the lexicographic 3.1 threshold). -/
theorem c4_extended_iff_both_components (major minor : Nat) :
    walletRootExportKind major minor = ExportKind.extendedPub ↔ (3 ≤ major ∧ 1 ≤ minor) := by
  unfold walletRootExportKind supportsExtended
  by_cases h1 : 3 ≤ major <;> by_cases h2 : 1 ≤ minor <;> simp [h1, h2]

/-- C3 counterexample: the Login flow's first export passes
make_current=false, and the session manager's recover-keys sequence passes
make_current=true on an export after the first, so the claimed first-true
then-all-false discipline fails on both. -/
theorem c3_counterexample :
    specFirstExportCurrent loginFlowExportCalls = false ∧
    specFirstExportCurrent (sessionExportRecoverKeysCalls 3 1) = false := by
  decide

/-- C3 amended: SessionManager::exportLoginKeys passes make_current true
then false; SessionManager::exportRecoverKeys passes true on its first
export, false on the four that follow, and true again on the final master
export; LoginFlow::exportKey passes make_current only for the master path,
so both of the Login flow's exports pass false. -/
theorem c3_make_current_sequences :
    sessionExportLoginKeysCalls.map ExportCall.makeCurrent = [true, false] ∧
    (∀ major minor : Nat,
      (sessionExportRecoverKeysCalls major minor).map ExportCall.makeCurrent
        = [true, false, false, false, false, true]) ∧
    loginFlowExportCalls.map ExportCall.makeCurrent = [false, false] :=
  ⟨rfl, fun _ _ => rfl, rfl⟩

/-- C1: in the Session Manager's connect sequence every successful
open_secure_channel is followed immediately by GET_STATUS(Application) and
no VERIFY_PIN precedes it, but the flow engine's
open_secure_channel_and_authenticate issues VERIFY_PIN directly after a
successful open with no GET_STATUS at all, so the claim fails on the flow
facade. -/
theorem c1_next_apdu_after_open :
    (∀ selOk initialized havePairing pairOk : Bool,
      APDUCmd.openSC ∈ sessionConnectTrace selOk initialized havePairing pairOk true →
      afterOpen (sessionConnectTrace selOk initialized havePairing pairOk true)
          = some APDUCmd.getStatusApp ∧
      APDUCmd.verifyPin ∉ sessionConnectTrace selOk initialized havePairing pairOk true) ∧
    flowOpenAuthTrace true true false true true true [true]
        = [APDUCmd.openSC, APDUCmd.verifyPin] ∧
    afterOpen (flowOpenAuthTrace true true false true true true [true])
        = some APDUCmd.verifyPin := by
  decide

/-- C1 witness: on a card with a stored pairing that accepts the open, the
session facade's APDU after OPEN_SECURE_CHANNEL is GET_STATUS(Application). -/
theorem c1_next_apdu_after_open_witness :
    afterOpen (sessionConnectTrace true true true true true) = some APDUCmd.getStatusApp :=
  (c1_next_apdu_after_open.1 true true true true (by decide)).1

/-- C5: encoding metadata with name A and path-component set containing 0
produces the blob 21 41 00 00, which getMetadata's TLV parser cannot read
back: it finds no 0xA1 template and returns an empty name and no
components, so the store-then-read round trip does not reproduce the
stored values. -/
theorem c5_metadata_roundtrip_fails :
    storeMetadataEncode [0x41] [0] = some [0x21, 0x41, 0, 0] ∧
    getMetadataDecode [0x21, 0x41, 0, 0] = ([], []) ∧
    (([], []) : List Nat × List Nat) ≠ ([0x41], [0]) := by
  decide

/-- C2: the session manager's load_mnemonic and the LoadAccount flow's
mnemonic-to-seed step run the same PBKDF2-HMAC-SHA512 derivation (2048
iterations, 64 bytes, salt mnemonic plus normalized passphrase), but both
normalize with NFD instead of the claimed NFKD: on the mnemonic consisting
of the single code point U+FB01 the code passes the password bytes EF AC 81
while the spec's NFKD derivation passes 66 69, so the derived seeds
disagree. -/
theorem c2_mnemonic_nfd_not_nfkd :
    (∀ m p : List Nat, sessionLoadMnemonicPbkdf2 m p = flowMnemonicToSeedPbkdf2 m p) ∧
    (sessionLoadMnemonicPbkdf2 [0xFB01] []).password = [0xEF, 0xAC, 0x81] ∧
    (specLoadMnemonicPbkdf2 [0xFB01] []).password = [0x66, 0x69] ∧
    sessionLoadMnemonicPbkdf2 [0xFB01] [] ≠ specLoadMnemonicPbkdf2 [0xFB01] [] :=
  ⟨fun _ _ => rfl, by decide, by decide, by decide⟩

/-- C7 counterexample: in the first session_manager.cpp variant there is no
same-UID suppression, so a target_detected for the already tracked UID in
the Ready state still emits a ConnectingCard transition and re-establishes
the secure channel with a fresh CommandSet, contradicting the claim. -/
theorem c7_counterexample :
    (onCardDetectedA ⟨SessionState.Ready, "ab"⟩ "ab" true true).emittedConnecting = true ∧
    (onCardDetectedA ⟨SessionState.Ready, "ab"⟩ "ab" true true).freshCommandSet = true := by
  decide

/-- C7 amended: in the second session_manager.cpp variant, a
target_detected whose UID equals the tracked UID is ignored whenever the
state is Ready, Authorized or ConnectingCard (indeed whenever it is not
ConnectionError): the state is unchanged, no ConnectingCard transition is
emitted and no fresh secure-channel state is created; the first variant
performs no such suppression. -/
theorem c7_same_uid_ignored (st : MgrSt) (uid : String)
    (h1 : st.currentUID = uid)
    (h2 : st.state = SessionState.Ready ∨ st.state = SessionState.Authorized ∨
          st.state = SessionState.ConnectingCard) :
    ∀ hasCmdSet selOk initialized : Bool,
      onCardDetectedB st uid hasCmdSet selOk initialized = ⟨st, false, false⟩ := by
  intro hasCmdSet selOk initialized
  have hne : ¬ st.state = SessionState.ConnectionError := by
    rcases h2 with h | h | h <;> simp [h]
  simp [onCardDetectedB, h1, hne]

/-- C7 witness: a repeated detection of the tracked card in the Authorized
state is ignored by the suppressing variant. -/
theorem c7_same_uid_ignored_witness :
    onCardDetectedB ⟨SessionState.Authorized, "cd"⟩ "cd" true true true
      = ⟨⟨SessionState.Authorized, "cd"⟩, false, false⟩ :=
  c7_same_uid_ignored ⟨SessionState.Authorized, "cd"⟩ "cd" rfl
    (Or.inr (Or.inl rfl)) true true true

/-- C8: authorize fails and leaves the session state unchanged whenever the
state is not Ready; in Ready, a wrong PIN with a reported remaining count
fails, keeps the state Ready, and sets last_error to the wrong-PIN message
carrying the remaining count; a correct PIN succeeds and moves the state to
Authorized. -/
theorem c8_authorize_behavior :
    (∀ (st : AuthSt) (hasCmdSet verifyOk : Bool) (e : String) (r : Int),
      st.state ≠ SessionState.Ready →
      (authorize st hasCmdSet verifyOk e r).1 = false ∧
      (authorize st hasCmdSet verifyOk e r).2.state = st.state) ∧
    (∀ (st : AuthSt) (e : String) (r : Int),
      st.state = SessionState.Ready → 0 ≤ r →
      (authorize st true false e r).1 = false ∧
      (authorize st true false e r).2.state = SessionState.Ready ∧
      (authorize st true false e r).2.lastError
        = "Wrong PIN (" ++ toString r ++ " attempts remaining)") ∧
    (∀ (st : AuthSt) (e : String) (r : Int),
      st.state = SessionState.Ready →
      (authorize st true true e r).1 = true ∧
      (authorize st true true e r).2.state = SessionState.Authorized) := by
  refine ⟨?_, ?_, ?_⟩
  · intro st hasCmdSet verifyOk e r hne
    simp [authorize, hne]
  · intro st e r hready hr
    simp [authorize, hready, hr]
  · intro st e r hready
    simp [authorize, hready]

/-- C8 witness: in Ready with the card reporting a wrong PIN and 2 attempts
left, authorize fails, stays Ready, and last_error is the wrong-PIN message
containing 2. -/
theorem c8_authorize_behavior_witness :
    (authorize ⟨SessionState.Ready, false, ""⟩ true false "verify failed" 2).1 = false ∧
    (authorize ⟨SessionState.Ready, false, ""⟩ true false "verify failed" 2).2.state
      = SessionState.Ready ∧
    (authorize ⟨SessionState.Ready, false, ""⟩ true false "verify failed" 2).2.lastError
      = "Wrong PIN (2 attempts remaining)" := by
  have h := c8_authorize_behavior.2.1 ⟨SessionState.Ready, false, ""⟩ "verify failed" 2 rfl
    (by decide)
  exact ⟨h.1, h.2.1, by rw [h.2.2]; rfl⟩

/-- Hex digits produced by `hexDigitChar` decode back to their value. -/
theorem hexVal_hexDigitChar (d : Nat) (h : d < 16) : hexVal (hexDigitChar d) = some d := by
  interval_cases d <;> rfl

/-- Character list underlying `bytesToHex`. -/
theorem bytesToHex_data (l : List Nat) :
    (bytesToHex l).data
      = l.foldr (fun b acc => hexDigitChar (b / 16) :: hexDigitChar (b % 16) :: acc) [] := rfl

/-- The hex encoding of a non-empty byte list is a non-empty string. -/
theorem bytesToHex_ne_empty (b : Nat) (rest : List Nat) : bytesToHex (b :: rest) ≠ "" := by
  intro he
  have h2 := congrArg String.data he
  rw [bytesToHex_data] at h2
  simp only [List.foldr] at h2
  exact List.noConfusion h2

/-- fromHex inverts toHex on byte lists (the only inputs the pairing file
ever holds). -/
theorem hexToBytes_bytesToHex (l : List Nat) (h : ∀ b ∈ l, b < 256) :
    hexToBytes (bytesToHex l) = l := by
  show hexToBytesList
      (l.foldr (fun b acc => hexDigitChar (b / 16) :: hexDigitChar (b % 16) :: acc) []) = l
  induction l with
  | nil => rfl
  | cons b rest ih =>
      have hb : b < 256 := h b (List.mem_cons_self b rest)
      have hdiv : b / 16 < 16 := by omega
      have hmod : b % 16 < 16 := by omega
      simp only [List.foldr, hexToBytesList, hexVal_hexDigitChar _ hdiv,
        hexVal_hexDigitChar _ hmod]
      rw [ih (fun x hx => h x (List.mem_cons_of_mem b hx))]
      congr 1
      omega

/-- C9: for every 16-byte instance UID and every pairing record with a
32-byte key, storing the pairing, saving the store to its file, loading the
file into a fresh store and retrieving the pairing for that UID yields the
identical key bytes and an equal index. -/
theorem c9_pairing_roundtrip (uid key : List Nat) (index : Nat)
    (h1 : uid.length = 16) (h2 : ∀ b ∈ uid, b < 256)
    (h3 : key.length = 32) (h4 : ∀ b ∈ key, b < 256) :
    (storePairing (bytesToHex uid) ⟨key, index⟩ []).1 = true ∧
    loadPairing (bytesToHex uid)
      (loadPairings (savePairings (storePairing (bytesToHex uid) ⟨key, index⟩ []).2))
      = some ⟨key, index⟩ := by
  have huidne : bytesToHex uid ≠ "" := by
    cases uid with
    | nil => simp at h1
    | cons b rest => exact bytesToHex_ne_empty b rest
  have hvalid : (PairingInfo.mk key index).isValid = true := by
    simp [PairingInfo.isValid, h3]
  have hstore : storePairing (bytesToHex uid) ⟨key, index⟩ []
      = (true, [(bytesToHex uid, ⟨key, index⟩)]) := by
    simp [storePairing, huidne, hvalid, mapInsert]
  have hkey : hexToBytes (bytesToHex key) = key := hexToBytes_bytesToHex key h4
  have hknil : key ≠ [] := by
    cases key with
    | nil => simp at h3
    | cons a b => exact List.cons_ne_nil a b
  refine ⟨by rw [hstore], ?_⟩
  rw [hstore]
  simp [savePairings, loadPairings, hkey, hknil, mapInsert, loadPairing, mapLookup]

/-- C9 witness: a concrete 16-byte UID and 32-byte key survive the
store-save-load-retrieve round trip. -/
theorem c9_pairing_roundtrip_witness :
    loadPairing (bytesToHex uidSample)
      (loadPairings (savePairings (storePairing (bytesToHex uidSample) ⟨keySample, 1⟩ []).2))
      = some ⟨keySample, 1⟩ :=
  (c9_pairing_roundtrip uidSample keySample 1 (by decide) (by decide) (by decide)
    (by decide)).2

end StatusKeycard
